import Mathlib

/-!
Shallow embedding of the nanomdm core: the PostgreSQL cert-auth storage
(certauth.go), the HTTP check-in and command handlers (mdm handler file),
and the main NanoMDM service dispatch (service.go), together with proofs
of the specified properties.
-/

set_option maxRecDepth 4000
set_option linter.unusedVariables false

/-- Embedding of Go strings.ToLower restricted to the byte-level casing the
code relies on (SHA-256 hex strings are ASCII). -/
def goToLower (s : String) : String :=
  String.mk (s.data.map Char.toLower)

/-- One row of the cert_auth_associations table:
cert_auth_associations(id PK part, sha256 PK part, created_at, updated_at). -/
structure CertAuthRow where
  id : String
  sha256 : String
  createdAt : Nat
  updatedAt : Nat
deriving DecidableEq, Repr

/-- The cert_auth_associations table as a list of rows. -/
abbrev CertAuthTable := List CertAuthRow

/-- Row matches the primary key (id, sha256). -/
def CertAuthRow.matchesKey (row : CertAuthRow) (rid h : String) : Bool :=
  row.id == rid && row.sha256 == h

/-- The primary-key constraint of cert_auth_associations: no two rows share
the (id, sha256) pair. -/
def uniquePK (t : CertAuthTable) : Prop :=
  List.Pairwise (fun a b => ¬(a.id = b.id ∧ a.sha256 = b.sha256)) t

instance (t : CertAuthTable) : Decidable (uniquePK t) :=
  List.instDecidablePairwise t

/-- Embedding of PgSQLStorage.EnrollmentHasCertHash: SELECT COUNT(*) FROM
cert_auth_associations WHERE id = $1, with the row-exists test ct > 0. -/
def EnrollmentHasCertHash (t : CertAuthTable) (rid : String) : Bool :=
  t.any (fun row => row.id == rid)

/-- Embedding of PgSQLStorage.HasCertHash: SELECT COUNT(*) FROM
cert_auth_associations WHERE sha256 = $1 with argument strings.ToLower(hash). -/
def HasCertHash (t : CertAuthTable) (hash : String) : Bool :=
  t.any (fun row => row.sha256 == goToLower hash)

/-- Embedding of PgSQLStorage.IsCertHashAssociated: SELECT COUNT(*) FROM
cert_auth_associations WHERE id = $1 AND sha256 = $2 with the hash argument
lowercased by strings.ToLower. -/
def IsCertHashAssociated (t : CertAuthTable) (rid hash : String) : Bool :=
  t.any (fun row => row.id == rid && row.sha256 == goToLower hash)

/-- Embedding of PgSQLStorage.AssociateCertHash: INSERT INTO
cert_auth_associations (id, sha256) VALUES ($1, $2) ON CONFLICT ON CONSTRAINT
cert_auth_associations_pkey DO UPDATE SET updated_at=now(); the hash argument
is lowercased by strings.ToLower. now is the transaction timestamp. -/
def AssociateCertHash (t : CertAuthTable) (now : Nat) (rid hash : String) : CertAuthTable :=
  let h := goToLower hash
  if t.any (fun row => row.matchesKey rid h) then
    t.map (fun row => if row.matchesKey rid h then { row with updatedAt := now } else row)
  else
    t ++ [{ id := rid, sha256 := h, createdAt := now, updatedAt := now }]

/-- Error value surfaced by database/sql scans. -/
inductive SqlErr where
  | noRows
  | other (msg : String)
deriving DecidableEq, Repr

/-- Result of QueryRowContext(...).Scan(&id) for the EnrollmentFromHash query. -/
inductive ScanResult where
  | row (id : String)
  | failure (e : SqlErr)
deriving DecidableEq, Repr

/-- The query of PgSQLStorage.EnrollmentFromHash: SELECT id FROM
cert_auth_associations WHERE sha256 = $1 LIMIT 1. Note the hash argument is
passed through verbatim, with no strings.ToLower. An empty result scans to
sql.ErrNoRows. -/
def scanEnrollmentFromHash (t : CertAuthTable) (hash : String) : ScanResult :=
  match t.find? (fun row => row.sha256 == hash) with
  | some row => ScanResult.row row.id
  | none => ScanResult.failure SqlErr.noRows

/-- Embedding of the error handling of PgSQLStorage.EnrollmentFromHash: on
sql.ErrNoRows return ("", nil); otherwise return the scanned id and the
error (the id variable still holds its zero value "" when the scan failed). -/
def EnrollmentFromHashResult : ScanResult → String × Option SqlErr
  | ScanResult.row id => (id, none)
  | ScanResult.failure SqlErr.noRows => ("", none)
  | ScanResult.failure e => ("", some e)

/-- Embedding of PgSQLStorage.EnrollmentFromHash over a pure table. -/
def EnrollmentFromHash (t : CertAuthTable) (hash : String) : String × Option SqlErr :=
  EnrollmentFromHashResult (scanEnrollmentFromHash t hash)

/-- A parsed enrollment block as sent in a check-in message. The fields are
the identifiers named by the spec: UDID, EnrollmentID, UserID, UserShortName. -/
structure Enrollment where
  udid : String
  enrollmentID : String
  userID : String
  userShortName : String
deriving DecidableEq, Repr

/-- The resolved view of an enrollment block that Enrollment.Resolved
produces and normalize consumes. -/
structure ResolvedEnrollment where
  etype : String
  deviceChannelID : String
  userChannelID : String
  isUserChannel : Bool
deriving DecidableEq, Repr

/-- Modelled from the spec: the mdm package and its Enrollment.Resolved are
not under src/. Per the resolution rules of the spec, prefer UDID for the
device id and fall back to EnrollmentID; the block denotes a user channel
when a user identifier is present, preferring UserID over UserShortName; an
empty block does not resolve. -/
def Enrollment.resolved (e : Enrollment) : Option ResolvedEnrollment :=
  let dev := if e.udid ≠ "" then e.udid else e.enrollmentID
  if dev = "" then none
  else
    let user := if e.userID ≠ "" then e.userID else e.userShortName
    some { etype := if user ≠ "" then "User" else "Device"
           deviceChannelID := dev
           userChannelID := user
           isUserChannel := user ≠ "" }

/-- The canonical enrollment identifier. ParentID has the Go zero value ""
when unset. -/
structure EnrollID where
  etype : String
  id : String
  parentID : String
deriving DecidableEq, Repr

/-- Embedding of the normalize function of the NanoMDM service: resolve the
enrollment; a device enrollment is identified by the device channel id; a
user enrollment appends a colon and the user channel id and records the
device channel id as ParentID. Returns none (Go nil) when the block does not
resolve. -/
def NanoMDM.normalize (e : Enrollment) : Option EnrollID :=
  match e.resolved with
  | none => none
  | some r =>
    let eid : EnrollID := { etype := r.etype, id := r.deviceChannelID, parentID := "" }
    some (if r.isUserChannel then
            { eid with id := eid.id ++ ":" ++ r.userChannelID
                       parentID := r.deviceChannelID }
          else eid)

/-- Errors surfaced by the service layer. notImplemented embeds the
errors.New("no ... handler") values (the spec calls this error kind
NotImplemented); wrapped embeds fmt.Errorf("...: %w", err). -/
inductive Err where
  | invalidEnrollment (msg : String)
  | notImplemented (handler : String)
  | storage (msg : String)
  | wrapped (msg : String) (cause : Err)
deriving DecidableEq, Repr

/-- Modelled from the spec: mdm.EnrollID.Validate is not under src/. Per the
spec, validation fails (error kind InvalidEnrollment) when the enrollment did
not resolve (nil EnrollID) or when the enrollment id is empty. -/
def validateEnrollID : Option EnrollID → Option Err
  | none => some (Err.invalidEnrollment "nil enrollment id")
  | some eid => if eid.id = "" then some (Err.invalidEnrollment "empty enrollment id") else none

/-- The MDM request context: the enrollment id once resolved (r.ID is the id
of the installed EnrollID, "" before setup). -/
structure Request where
  enrollID : Option EnrollID
deriving DecidableEq, Repr

/-- Embedding of Service.setupRequest: run the normalizer, install the
EnrollID on the request, and validate it; a validation error is returned to
the caller. -/
def setupRequest (r : Request) (e : Enrollment) : Except Err Request :=
  let eid := NanoMDM.normalize e
  match validateEnrollID eid with
  | some err => Except.error err
  | none => Except.ok { r with enrollID := eid }

/-- A queued MDM command as returned by RetrieveNextCommand. -/
structure Command where
  commandUUID : String
  requestType : String
deriving DecidableEq, Repr

/-- One storage operation performed by the service, as recorded in an
operation trace. retrieveNextCommand records the skipNotNow flag passed. -/
inductive StoreOp where
  | storeAuthenticate
  | clearQueue
  | disable
  | storeTokenUpdate
  | storeBootstrapToken
  | retrieveBootstrapToken
  | storeCommandReport
  | retrieveNextCommand (skipNotNow : Bool)
deriving DecidableEq, Repr

/-- The behavior of the storage backend for one request: the outcome each
storage operation would report if invoked (none means success). -/
structure StoreBehavior where
  storeAuthenticate : Option Err
  clearQueue : Option Err
  disable : Option Err
  storeTokenUpdate : Option Err
  storeBootstrapToken : Option Err
  retrieveBootstrapToken : Except Err String
  storeCommandReport : Option Err
  retrieveNextCommand : Bool → Except Err (Option Command)

/-- Check-in messages (the fields the embedded code inspects). -/
structure AuthenticateMsg where
  enrollment : Enrollment
  serialNumber : String
deriving DecidableEq, Repr

structure TokenUpdateMsg where
  enrollment : Enrollment
deriving DecidableEq, Repr

structure CheckOutMsg where
  enrollment : Enrollment
deriving DecidableEq, Repr

structure UserAuthenticateMsg where
  enrollment : Enrollment
  digestResponse : String
deriving DecidableEq, Repr

structure SetBootstrapTokenMsg where
  enrollment : Enrollment
deriving DecidableEq, Repr

structure GetBootstrapTokenMsg where
  enrollment : Enrollment
deriving DecidableEq, Repr

structure DeclarativeManagementMsg where
  enrollment : Enrollment
  endpoint : String
deriving DecidableEq, Repr

structure GetTokenMsg where
  enrollment : Enrollment
  tokenServiceType : String
deriving DecidableEq, Repr

/-- The command report: Status, CommandUUID and the enrollment block. -/
structure CommandResults where
  enrollment : Enrollment
  status : String
  commandUUID : String
deriving DecidableEq, Repr

namespace Service

/-- Embedding of Service.Authenticate: setupRequest first; then
StoreAuthenticate, then ClearQueue, then Disable, each error returning
immediately. The second component is the trace of storage operations the
call performed, in order. -/
def Authenticate (st : StoreBehavior) (r : Request) (m : AuthenticateMsg) :
    Option Err × List StoreOp :=
  match setupRequest r m.enrollment with
  | Except.error err => (some err, [])
  | Except.ok _ =>
    match st.storeAuthenticate with
    | some err => (some err, [StoreOp.storeAuthenticate])
    | none =>
      match st.clearQueue with
      | some err => (some err, [StoreOp.storeAuthenticate, StoreOp.clearQueue])
      | none =>
        (st.disable, [StoreOp.storeAuthenticate, StoreOp.clearQueue, StoreOp.disable])

/-- Embedding of Service.TokenUpdate: setupRequest, then StoreTokenUpdate. -/
def TokenUpdate (st : StoreBehavior) (r : Request) (m : TokenUpdateMsg) :
    Option Err × List StoreOp :=
  match setupRequest r m.enrollment with
  | Except.error err => (some err, [])
  | Except.ok _ => (st.storeTokenUpdate, [StoreOp.storeTokenUpdate])

/-- Embedding of Service.CheckOut: setupRequest, then Disable only. -/
def CheckOut (st : StoreBehavior) (r : Request) (m : CheckOutMsg) :
    Option Err × List StoreOp :=
  match setupRequest r m.enrollment with
  | Except.error err => (some err, [])
  | Except.ok _ => (st.disable, [StoreOp.disable])

/-- Embedding of Service.UserAuthenticate: setupRequest; if the optional
handler s.ua is nil, fail with errors.New("no UserAuthenticate handler");
otherwise return exactly the handler result. ua models the configured
handler as the result it would return; the Bool records whether the handler
was called. -/
def UserAuthenticate (st : StoreBehavior) (ua : Option (Except Err String))
    (r : Request) (m : UserAuthenticateMsg) :
    Except Err String × List StoreOp × Bool :=
  match setupRequest r m.enrollment with
  | Except.error err => (Except.error err, [], false)
  | Except.ok _ =>
    match ua with
    | none => (Except.error (Err.notImplemented "no UserAuthenticate handler"), [], false)
    | some res => (res, [], true)

/-- Embedding of Service.SetBootstrapToken: setupRequest, then
StoreBootstrapToken. -/
def SetBootstrapToken (st : StoreBehavior) (r : Request) (m : SetBootstrapTokenMsg) :
    Option Err × List StoreOp :=
  match setupRequest r m.enrollment with
  | Except.error err => (some err, [])
  | Except.ok _ => (st.storeBootstrapToken, [StoreOp.storeBootstrapToken])

/-- Embedding of Service.GetBootstrapToken: setupRequest, then
RetrieveBootstrapToken. -/
def GetBootstrapToken (st : StoreBehavior) (r : Request) (m : GetBootstrapTokenMsg) :
    Except Err String × List StoreOp :=
  match setupRequest r m.enrollment with
  | Except.error err => (Except.error err, [])
  | Except.ok _ => (st.retrieveBootstrapToken, [StoreOp.retrieveBootstrapToken])

/-- Embedding of Service.DeclarativeManagement: setupRequest; if the optional
handler s.dm is nil, fail with errors.New("no Declarative Management
handler"); otherwise return exactly the handler result. -/
def DeclarativeManagement (st : StoreBehavior) (dm : Option (Except Err String))
    (r : Request) (m : DeclarativeManagementMsg) :
    Except Err String × List StoreOp × Bool :=
  match setupRequest r m.enrollment with
  | Except.error err => (Except.error err, [], false)
  | Except.ok _ =>
    match dm with
    | none => (Except.error (Err.notImplemented "no Declarative Management handler"), [], false)
    | some res => (res, [], true)

/-- Embedding of Service.GetToken: setupRequest; if the optional handler
s.gt is nil, fail with errors.New("no GetToken handler"); otherwise return
exactly the handler result. -/
def GetToken (st : StoreBehavior) (gt : Option (Except Err String))
    (r : Request) (m : GetTokenMsg) :
    Except Err String × List StoreOp × Bool :=
  match setupRequest r m.enrollment with
  | Except.error err => (Except.error err, [], false)
  | Except.ok _ =>
    match gt with
    | none => (Except.error (Err.notImplemented "no GetToken handler"), [], false)
    | some res => (res, [], true)

/-- Embedding of Service.CommandAndReportResults: setupRequest; then
StoreCommandReport (error wrapped as "storing command report"); then
RetrieveNextCommand with skipNotNow flag computed as the Go expression
results.Status == "NotNow" (error wrapped as "retrieving next command");
return the command, or none when the queue is empty. -/
def CommandAndReportResults (st : StoreBehavior) (r : Request) (results : CommandResults) :
    Except Err (Option Command) × List StoreOp :=
  match setupRequest r results.enrollment with
  | Except.error err => (Except.error err, [])
  | Except.ok _ =>
    match st.storeCommandReport with
    | some err =>
      (Except.error (Err.wrapped "storing command report" err), [StoreOp.storeCommandReport])
    | none =>
      let skip := results.status == "NotNow"
      match st.retrieveNextCommand skip with
      | Except.error err =>
        (Except.error (Err.wrapped "retrieving next command" err),
         [StoreOp.storeCommandReport, StoreOp.retrieveNextCommand skip])
      | Except.ok cmd =>
        (Except.ok cmd, [StoreOp.storeCommandReport, StoreOp.retrieveNextCommand skip])

end Service

/-- The skipNotNow flags of the RetrieveNextCommand calls recorded in a
trace, in order. -/
def retrieveFlags : List StoreOp → List Bool
  | [] => []
  | StoreOp.retrieveNextCommand b :: rest => b :: retrieveFlags rest
  | _ :: rest => retrieveFlags rest

/-- Modelled from the spec: the error types service.HTTPStatusError and
mdm.ParseError are not under src/ (only the handlers that unwrap them are).
A Go error chain: httpStatus embeds HTTPStatusError with a Status field and
a wrapped cause; parse embeds ParseError with offending Content and a
wrapped cause; wrapf embeds fmt.Errorf("...: %w", cause); base is an
unwrapped error. -/
inductive GoErr where
  | httpStatus (status : Nat) (cause : GoErr)
  | parse (content : String) (cause : GoErr)
  | wrapf (msg : String) (cause : GoErr)
  | base (msg : String)
deriving DecidableEq, Repr

/-- Embedding of errors.As with a *service.HTTPStatusError target: walk the
chain by Unwrap and return the Status and the wrapped cause (Unwrap result)
of the first HTTPStatusError found. -/
def asHTTPStatusError : GoErr → Option (Nat × GoErr)
  | GoErr.httpStatus s c => some (s, c)
  | GoErr.parse _ c => asHTTPStatusError c
  | GoErr.wrapf _ c => asHTTPStatusError c
  | GoErr.base _ => none

/-- Embedding of errors.As with a *mdm.ParseError target: walk the chain by
Unwrap and return the Content and the wrapped cause of the first ParseError
found. -/
def asParseError : GoErr → Option (String × GoErr)
  | GoErr.parse content c => some (content, c)
  | GoErr.httpStatus _ c => asParseError c
  | GoErr.wrapf _ c => asParseError c
  | GoErr.base _ => none

/-- Embedding of Go net/http StatusText for the codes the embedded code can
produce or that appear in the spec; unknown codes map to "" exactly as in
the Go standard library. -/
def statusText (code : Nat) : String :=
  if code = 200 then "OK"
  else if code = 400 then "Bad Request"
  else if code = 403 then "Forbidden"
  else if code = 404 then "Not Found"
  else if code = 500 then "Internal Server Error"
  else ""

/-- What the error path of a handler produced: the HTTP status sent, the
response body written by http.Error, and the parse content added to the log
(none when no ParseError was found). -/
structure ErrorResponse where
  httpStatus : Nat
  body : String
  loggedContent : Option String
deriving DecidableEq, Repr

/-- Embedding of the error path shared by CheckinHandler (lines after
service.CheckinRequest returns a non-nil error): start from
httpStatus = 500; if errors.As finds an HTTPStatusError use its Status and
rewrap its cause as fmt.Errorf("HTTP error: %w", statusErr.Unwrap());
if errors.As then finds a ParseError log its Content and rewrap; finally
http.Error writes http.StatusText(httpStatus) with that status. -/
def checkinHandlerErrorPath (e : GoErr) : ErrorResponse :=
  let s0 : Nat := 500
  let p1 : Nat × GoErr :=
    match asHTTPStatusError e with
    | some (st, cause) => (st, GoErr.wrapf "HTTP error" cause)
    | none => (s0, e)
  let content : Option String :=
    match asParseError p1.2 with
    | some (c, _) => some c
    | none => none
  { httpStatus := p1.1, body := statusText p1.1, loggedContent := content }

/-- Embedding of the error path of CommandAndReportResultsHandler, which is
textually identical to the check-in one. -/
def commandHandlerErrorPath (e : GoErr) : ErrorResponse :=
  let s0 : Nat := 500
  let p1 : Nat × GoErr :=
    match asHTTPStatusError e with
    | some (st, cause) => (st, GoErr.wrapf "HTTP error" cause)
    | none => (s0, e)
  let content : Option String :=
    match asParseError p1.2 with
    | some (c, _) => some c
    | none => none
  { httpStatus := p1.1, body := statusText p1.1, loggedContent := content }

/-- Embedding of RequestFromHTTP restricted to the Params logic: the URL
query is a finite map from parameter name to its list of values (Go
url.Values); when the query is non-empty every key k maps to v[0], the first
value; when the query is empty Params stays nil (none). -/
def RequestFromHTTPParams (query : List (String × List String)) :
    Option (List (String × String)) :=
  if query.length > 0 then
    some (query.map (fun kv => (kv.1, kv.2.headD "")))
  else
    none

/-- Sample storage behavior: every operation succeeds and the queue is
empty. -/
def stOK : StoreBehavior where
  storeAuthenticate := none
  clearQueue := none
  disable := none
  storeTokenUpdate := none
  storeBootstrapToken := none
  retrieveBootstrapToken := Except.ok "btok"
  storeCommandReport := none
  retrieveNextCommand := fun _ => Except.ok none

/-- Sample device enrollment block. -/
def eDev : Enrollment where
  udid := "AAA"
  enrollmentID := ""
  userID := ""
  userShortName := ""

/-- Sample user-channel enrollment block. -/
def eUser : Enrollment where
  udid := "AAA"
  enrollmentID := ""
  userID := "BBB"
  userShortName := ""

/-- Empty enrollment block: does not resolve. -/
def eEmpty : Enrollment where
  udid := ""
  enrollmentID := ""
  userID := ""
  userShortName := ""

/-- The resolved view of eUser. -/
def rUser : ResolvedEnrollment where
  etype := "User"
  deviceChannelID := "AAA"
  userChannelID := "BBB"
  isUserChannel := true

/-- A fresh request context. -/
def r0 : Request where
  enrollID := none

/-- The request context after setup for the device enrollment. -/
def reqAAA : Request where
  enrollID := some { etype := "Device", id := "AAA", parentID := "" }

/-- A NotNow command report for the sample device enrollment. -/
def resNotNow : CommandResults where
  enrollment := eDev
  status := "NotNow"
  commandUUID := "U1"

/-- Claim C3: for every resolvable enrollment block the normalizer produces
an EnrollID whose id is the device-channel id (empty parent id) on the
device channel, and the device-channel id, a colon, and the user-channel id
(parent id the device-channel id) on a user channel; and the normalizer is
deterministic: equal inputs yield byte-equal ids. -/
theorem C3_normalize_shape (e : Enrollment) (r : ResolvedEnrollment)
    (h : e.resolved = some r) :
    NanoMDM.normalize e = some
      { etype := r.etype
        id := if r.isUserChannel then r.deviceChannelID ++ ":" ++ r.userChannelID
              else r.deviceChannelID
        parentID := if r.isUserChannel then r.deviceChannelID else "" } ∧
    (∀ e2, e = e2 → NanoMDM.normalize e = NanoMDM.normalize e2) := by
  constructor
  · unfold NanoMDM.normalize
    rw [h]
    cases hr : r.isUserChannel <;> simp [hr]
  · intro e2 he
    rw [he]

/-- Witness for C3 at the concrete user-channel block eUser. -/
theorem C3_normalize_shape_witness :
    NanoMDM.normalize eUser = some { etype := "User", id := "AAA:BBB", parentID := "AAA" } :=
  (C3_normalize_shape eUser rUser rfl).1

/-- Claim C2: for every Authenticate message that passes normalization the
service performs exactly StoreAuthenticate, then ClearQueue, then Disable,
in that order, each error surfacing immediately with no subsequent step run;
for every CheckOut message that passes normalization the only storage
operation is Disable. -/
theorem C2_authenticate_ordering (st : StoreBehavior) (r : Request)
    (m : AuthenticateMsg) (c : CheckOutMsg) (req1 req2 : Request)
    (h1 : setupRequest r m.enrollment = Except.ok req1)
    (h2 : setupRequest r c.enrollment = Except.ok req2) :
    (∀ e1, st.storeAuthenticate = some e1 →
      Service.Authenticate st r m = (some e1, [StoreOp.storeAuthenticate])) ∧
    (∀ e2, st.storeAuthenticate = none → st.clearQueue = some e2 →
      Service.Authenticate st r m =
        (some e2, [StoreOp.storeAuthenticate, StoreOp.clearQueue])) ∧
    (st.storeAuthenticate = none → st.clearQueue = none →
      Service.Authenticate st r m =
        (st.disable, [StoreOp.storeAuthenticate, StoreOp.clearQueue, StoreOp.disable])) ∧
    Service.CheckOut st r c = (st.disable, [StoreOp.disable]) := by
  refine ⟨?_, ?_, ?_, ?_⟩
  · intro e1 ha
    unfold Service.Authenticate
    rw [h1, ha]
  · intro e2 ha hc
    unfold Service.Authenticate
    rw [h1, ha, hc]
  · intro ha hc
    unfold Service.Authenticate
    rw [h1, ha, hc]
  · unfold Service.CheckOut
    rw [h2]

/-- Witness for C2: the success path at the sample device enrollment runs
all three operations in order, and CheckOut runs Disable only. -/
theorem C2_authenticate_ordering_witness :
    Service.Authenticate stOK r0 { enrollment := eDev, serialNumber := "S1" } =
      (none, [StoreOp.storeAuthenticate, StoreOp.clearQueue, StoreOp.disable]) ∧
    Service.CheckOut stOK r0 { enrollment := eDev } = (none, [StoreOp.disable]) :=
  ⟨(C2_authenticate_ordering stOK r0 { enrollment := eDev, serialNumber := "S1" }
      { enrollment := eDev } reqAAA reqAAA rfl rfl).2.2.1 rfl rfl,
   (C2_authenticate_ordering stOK r0 { enrollment := eDev, serialNumber := "S1" }
      { enrollment := eDev } reqAAA reqAAA rfl rfl).2.2.2⟩

/-- Claim C4: every check-in operation and CommandAndReportResults first
runs the normalizer and installs the EnrollID on the request (on success the
installed EnrollID is exactly the normalizer output); when normalization or
EnrollID validation fails, each operation returns that error, performs no
storage operation (empty trace) and calls no handler. -/
theorem C4_setup_short_circuit (st : StoreBehavior)
    (ua dm gt : Option (Except Err String)) (r : Request) (e : Enrollment)
    (serial dig ep tst status uuid : String) (err : Err)
    (h : setupRequest r e = Except.error err) :
    (∀ r2 e2 req, setupRequest r2 e2 = Except.ok req →
      req.enrollID = NanoMDM.normalize e2) ∧
    Service.Authenticate st r { enrollment := e, serialNumber := serial } = (some err, []) ∧
    Service.TokenUpdate st r { enrollment := e } = (some err, []) ∧
    Service.CheckOut st r { enrollment := e } = (some err, []) ∧
    Service.UserAuthenticate st ua r { enrollment := e, digestResponse := dig } =
      (Except.error err, [], false) ∧
    Service.SetBootstrapToken st r { enrollment := e } = (some err, []) ∧
    Service.GetBootstrapToken st r { enrollment := e } = (Except.error err, []) ∧
    Service.DeclarativeManagement st dm r { enrollment := e, endpoint := ep } =
      (Except.error err, [], false) ∧
    Service.GetToken st gt r { enrollment := e, tokenServiceType := tst } =
      (Except.error err, [], false) ∧
    Service.CommandAndReportResults st r
      { enrollment := e, status := status, commandUUID := uuid } = (Except.error err, []) := by
  refine ⟨?_, ?_, ?_, ?_, ?_, ?_, ?_, ?_, ?_, ?_⟩
  · intro r2 e2 req hok
    unfold setupRequest at hok
    dsimp only at hok
    cases hv : validateEnrollID (NanoMDM.normalize e2) with
    | some err2 =>
      rw [hv] at hok
      exact absurd hok (by simp)
    | none =>
      rw [hv] at hok
      simp only [Except.ok.injEq] at hok
      rw [← hok]
  · unfold Service.Authenticate
    rw [h]
  · unfold Service.TokenUpdate
    rw [h]
  · unfold Service.CheckOut
    rw [h]
  · unfold Service.UserAuthenticate
    rw [h]
  · unfold Service.SetBootstrapToken
    rw [h]
  · unfold Service.GetBootstrapToken
    rw [h]
  · unfold Service.DeclarativeManagement
    rw [h]
  · unfold Service.GetToken
    rw [h]
  · unfold Service.CommandAndReportResults
    rw [h]

/-- Witness for C4 at the unresolvable empty enrollment block: Authenticate
and CommandAndReportResults return the validation error with no storage
operation performed. -/
theorem C4_setup_short_circuit_witness :
    Service.Authenticate stOK r0 { enrollment := eEmpty, serialNumber := "S" } =
      (some (Err.invalidEnrollment "nil enrollment id"), []) ∧
    Service.CommandAndReportResults stOK r0
      { enrollment := eEmpty, status := "Idle", commandUUID := "" } =
      (Except.error (Err.invalidEnrollment "nil enrollment id"), []) :=
  ⟨(C4_setup_short_circuit stOK none none none r0 eEmpty "S" "" "" "" "Idle" ""
      (Err.invalidEnrollment "nil enrollment id") rfl).2.1,
   (C4_setup_short_circuit stOK none none none r0 eEmpty "S" "" "" "" "Idle" ""
      (Err.invalidEnrollment "nil enrollment id") rfl).2.2.2.2.2.2.2.2.2⟩

/-- Claim C5: for UserAuthenticate, DeclarativeManagement and GetToken
messages that pass normalization, an unconfigured handler yields the
NotImplemented-kind error (the errors.New("no ... handler") value) with no
storage operation performed; a configured handler yields exactly the handler
result. -/
theorem C5_optional_handlers (st : StoreBehavior)
    (ua dm gt : Option (Except Err String)) (r : Request)
    (mu : UserAuthenticateMsg) (md : DeclarativeManagementMsg) (mg : GetTokenMsg)
    (ru rd rg : Request)
    (hu : setupRequest r mu.enrollment = Except.ok ru)
    (hd : setupRequest r md.enrollment = Except.ok rd)
    (hg : setupRequest r mg.enrollment = Except.ok rg) :
    (ua = none → Service.UserAuthenticate st ua r mu =
      (Except.error (Err.notImplemented "no UserAuthenticate handler"), [], false)) ∧
    (∀ res, ua = some res → Service.UserAuthenticate st ua r mu = (res, [], true)) ∧
    (dm = none → Service.DeclarativeManagement st dm r md =
      (Except.error (Err.notImplemented "no Declarative Management handler"), [], false)) ∧
    (∀ res, dm = some res → Service.DeclarativeManagement st dm r md = (res, [], true)) ∧
    (gt = none → Service.GetToken st gt r mg =
      (Except.error (Err.notImplemented "no GetToken handler"), [], false)) ∧
    (∀ res, gt = some res → Service.GetToken st gt r mg = (res, [], true)) := by
  refine ⟨?_, ?_, ?_, ?_, ?_, ?_⟩
  · intro hn
    unfold Service.UserAuthenticate
    rw [hu, hn]
  · intro res hs
    unfold Service.UserAuthenticate
    rw [hu, hs]
  · intro hn
    unfold Service.DeclarativeManagement
    rw [hd, hn]
  · intro res hs
    unfold Service.DeclarativeManagement
    rw [hd, hs]
  · intro hn
    unfold Service.GetToken
    rw [hg, hn]
  · intro res hs
    unfold Service.GetToken
    rw [hg, hs]

/-- Witness for C5: with no handlers configured each of the three
operations fails with its no-handler error and calls nothing; with a
configured UserAuthenticate handler its result is returned verbatim. -/
theorem C5_optional_handlers_witness :
    Service.UserAuthenticate stOK none r0 { enrollment := eDev, digestResponse := "" } =
      (Except.error (Err.notImplemented "no UserAuthenticate handler"), [], false) ∧
    Service.DeclarativeManagement stOK none r0 { enrollment := eDev, endpoint := "status" } =
      (Except.error (Err.notImplemented "no Declarative Management handler"), [], false) ∧
    Service.GetToken stOK none r0 { enrollment := eDev, tokenServiceType := "com.apple.maid" } =
      (Except.error (Err.notImplemented "no GetToken handler"), [], false) ∧
    Service.UserAuthenticate stOK (some (Except.ok "handler-bytes")) r0
      { enrollment := eDev, digestResponse := "" } = (Except.ok "handler-bytes", [], true) :=
  ⟨(C5_optional_handlers stOK none none none r0
      { enrollment := eDev, digestResponse := "" }
      { enrollment := eDev, endpoint := "status" }
      { enrollment := eDev, tokenServiceType := "com.apple.maid" }
      reqAAA reqAAA reqAAA rfl rfl rfl).1 rfl,
   (C5_optional_handlers stOK none none none r0
      { enrollment := eDev, digestResponse := "" }
      { enrollment := eDev, endpoint := "status" }
      { enrollment := eDev, tokenServiceType := "com.apple.maid" }
      reqAAA reqAAA reqAAA rfl rfl rfl).2.2.1 rfl,
   (C5_optional_handlers stOK none none none r0
      { enrollment := eDev, digestResponse := "" }
      { enrollment := eDev, endpoint := "status" }
      { enrollment := eDev, tokenServiceType := "com.apple.maid" }
      reqAAA reqAAA reqAAA rfl rfl rfl).2.2.2.2.1 rfl,
   (C5_optional_handlers stOK (some (Except.ok "handler-bytes")) none none r0
      { enrollment := eDev, digestResponse := "" }
      { enrollment := eDev, endpoint := "status" }
      { enrollment := eDev, tokenServiceType := "com.apple.maid" }
      reqAAA reqAAA reqAAA rfl rfl rfl).2.1 (Except.ok "handler-bytes") rfl⟩

/-- Counterexample to claim C1 as stated: at the concrete NotNow report
resNotNow, the service calls RetrieveNextCommand with the skip-NotNow flag
true, not false; no call with flag false occurs in the trace. -/
theorem C1_skip_flag_counterexample :
    retrieveFlags (Service.CommandAndReportResults stOK r0 resNotNow).2 = [true] ∧
    StoreOp.retrieveNextCommand false ∉ (Service.CommandAndReportResults stOK r0 resNotNow).2 := by
  constructor
  · rfl
  · decide

/-- Claim C1 amended: whenever the report is persisted, the service calls
RetrieveNextCommand exactly once, with the skip-NotNow flag true when and
only when the reported status is "NotNow" (so a NotNow-deferred command is
skipped in the same response as its own NotNow result, and may be returned
on a later poll whose status is anything else). -/
theorem C1_amended_skip_flag (st : StoreBehavior) (r : Request)
    (results : CommandResults) (req : Request)
    (hset : setupRequest r results.enrollment = Except.ok req)
    (hrep : st.storeCommandReport = none) :
    (Service.CommandAndReportResults st r results).2 =
      [StoreOp.storeCommandReport,
       StoreOp.retrieveNextCommand (results.status == "NotNow")] ∧
    (((results.status == "NotNow") = true) ↔ results.status = "NotNow") := by
  constructor
  · unfold Service.CommandAndReportResults
    rw [hset, hrep]
    dsimp only
    cases st.retrieveNextCommand (results.status == "NotNow") <;> rfl
  · exact beq_iff_eq

/-- Witness for C1 amended at the concrete NotNow report: the flag passed is
true. -/
theorem C1_amended_skip_flag_witness :
    (Service.CommandAndReportResults stOK r0 resNotNow).2 =
      [StoreOp.storeCommandReport,
       StoreOp.retrieveNextCommand (resNotNow.status == "NotNow")] :=
  (C1_amended_skip_flag stOK r0 resNotNow reqAAA rfl rfl).1

/-- Updating updated_at leaves the primary key of a row unchanged. -/
theorem matchesKey_updatedAt (row : CertAuthRow) (rid h : String) (now : Nat) :
    CertAuthRow.matchesKey { row with updatedAt := now } rid h = row.matchesKey rid h :=
  rfl

/-- matchesKey decodes to equality of the key fields. -/
theorem matchesKey_eq (row : CertAuthRow) (rid h : String) :
    row.matchesKey rid h = true ↔ row.id = rid ∧ row.sha256 = h := by
  simp [CertAuthRow.matchesKey]

/-- The conditional updated_at rewrite leaves the id field unchanged. -/
theorem updateRow_id (row : CertAuthRow) (rid h : String) (now : Nat) :
    (if row.matchesKey rid h then { row with updatedAt := now } else row).id = row.id := by
  split <;> rfl

/-- The conditional updated_at rewrite leaves the sha256 field unchanged. -/
theorem updateRow_sha256 (row : CertAuthRow) (rid h : String) (now : Nat) :
    (if row.matchesKey rid h then { row with updatedAt := now } else row).sha256 = row.sha256 := by
  split <;> rfl

/-- The DO UPDATE branch does not change how many rows match the key. -/
theorem countP_update_map (t : CertAuthTable) (rid h : String) (now : Nat) :
    (t.map (fun row => if row.matchesKey rid h then { row with updatedAt := now } else row)).countP
      (fun row => row.matchesKey rid h) =
    t.countP (fun row => row.matchesKey rid h) := by
  induction t with
  | nil => rfl
  | cons a t ih =>
    simp only [List.map_cons, List.countP_cons]
    rw [ih]
    congr 1
    by_cases ha : a.matchesKey rid h
    · rw [if_pos ha, matchesKey_updatedAt]
    · rw [if_neg ha]

/-- Under the primary-key constraint at most one row matches a key. -/
theorem countP_matchesKey_le_one (t : CertAuthTable) (rid h : String) (hu : uniquePK t) :
    t.countP (fun row => row.matchesKey rid h) ≤ 1 := by
  induction t with
  | nil => simp
  | cons a t ih =>
    rcases List.pairwise_cons.mp hu with ⟨ha, ht⟩
    rw [List.countP_cons]
    by_cases hm : a.matchesKey rid h
    · have h0 : t.countP (fun row => row.matchesKey rid h) = 0 := by
        rw [List.countP_eq_zero]
        intro b hb hbm
        rcases (matchesKey_eq a rid h).mp hm with ⟨ha1, ha2⟩
        rcases (matchesKey_eq b rid h).mp hbm with ⟨hb1, hb2⟩
        exact ha b hb ⟨ha1.trans hb1.symm, ha2.trans hb2.symm⟩
      simp [hm, h0]
    · simp only [hm, if_false]
      simpa using ih ht

/-- One AssociateCertHash call leaves exactly one row matching the
(lowercased) key, given the primary-key constraint. -/
theorem countP_associate (t : CertAuthTable) (now : Nat) (rid hash : String)
    (hu : uniquePK t) :
    (AssociateCertHash t now rid hash).countP
      (fun row => row.matchesKey rid (goToLower hash)) = 1 := by
  unfold AssociateCertHash
  dsimp only
  by_cases hex : t.any (fun row => row.matchesKey rid (goToLower hash)) = true
  · rw [if_pos hex, countP_update_map]
    have hpos : 0 < t.countP (fun row => row.matchesKey rid (goToLower hash)) := by
      rcases List.any_eq_true.mp hex with ⟨b, hb, hbm⟩
      exact List.countP_pos_iff.mpr ⟨b, hb, hbm⟩
    have hle := countP_matchesKey_le_one t rid (goToLower hash) hu
    omega
  · rw [if_neg hex, List.countP_append]
    have h0 : t.countP (fun row => row.matchesKey rid (goToLower hash)) = 0 := by
      rw [List.countP_eq_zero]
      intro b hb hbm
      exact hex (List.any_eq_true.mpr ⟨b, hb, hbm⟩)
    rw [h0]
    simp [CertAuthRow.matchesKey]

/-- AssociateCertHash preserves the primary-key constraint. -/
theorem uniquePK_associate (t : CertAuthTable) (now : Nat) (rid hash : String)
    (hu : uniquePK t) : uniquePK (AssociateCertHash t now rid hash) := by
  unfold AssociateCertHash
  dsimp only
  by_cases hex : t.any (fun row => row.matchesKey rid (goToLower hash)) = true
  · rw [if_pos hex]
    refine List.Pairwise.map _ ?_ hu
    intro a b hab hk
    apply hab
    rcases hk with ⟨h1, h2⟩
    rw [updateRow_id, updateRow_id] at h1
    rw [updateRow_sha256, updateRow_sha256] at h2
    exact ⟨h1, h2⟩
  · rw [if_neg hex]
    unfold uniquePK at hu ⊢
    rw [List.pairwise_append]
    refine ⟨hu, List.pairwise_singleton _ _, ?_⟩
    intro a ha b hb
    rcases List.mem_singleton.mp hb with rfl
    intro hk
    rcases hk with ⟨h1, h2⟩
    have ham : a.matchesKey rid (goToLower hash) = true :=
      (matchesKey_eq a rid (goToLower hash)).mpr ⟨h1, h2⟩
    exact hex (List.any_eq_true.mpr ⟨a, ha, ham⟩)

/-- Every row matching the key after an AssociateCertHash call carries the
timestamp of that call. -/
theorem associate_updatedAt (t : CertAuthTable) (now : Nat) (rid hash : String) :
    ∀ row ∈ AssociateCertHash t now rid hash,
      row.matchesKey rid (goToLower hash) = true → row.updatedAt = now := by
  intro row hrow hm
  unfold AssociateCertHash at hrow
  dsimp only at hrow
  by_cases hex : t.any (fun r2 => r2.matchesKey rid (goToLower hash)) = true
  · rw [if_pos hex] at hrow
    rcases List.mem_map.mp hrow with ⟨b, hb, hfb⟩
    by_cases hbm : b.matchesKey rid (goToLower hash) = true
    · rw [if_pos hbm] at hfb
      rw [← hfb]
    · rw [if_neg hbm] at hfb
      rw [← hfb] at hm
      exact absurd hm hbm
  · rw [if_neg hex] at hrow
    rcases List.mem_append.mp hrow with h1 | h2
    · exact absurd (List.any_eq_true.mpr ⟨row, h1, hm⟩) hex
    · rcases List.mem_singleton.mp h2 with rfl
      rfl

/-- When a row already matches the key, AssociateCertHash takes the DO
UPDATE branch and the table keeps its length. -/
theorem associate_length_of_any (t : CertAuthTable) (now : Nat) (rid hash : String)
    (hex : t.any (fun row => row.matchesKey rid (goToLower hash)) = true) :
    (AssociateCertHash t now rid hash).length = t.length := by
  unfold AssociateCertHash
  dsimp only
  rw [if_pos hex, List.length_map]

/-- Claim C7: AssociateCertHash is idempotent: calling it twice with the
same (enrollment id, hash) pair leaves exactly one matching row in
cert_auth_associations, the second call inserts nothing (table length
unchanged), and the matching row carries the second timestamp. -/
theorem C7_associate_idempotent (t : CertAuthTable) (now1 now2 : Nat)
    (rid hash : String) (hu : uniquePK t) :
    ((AssociateCertHash (AssociateCertHash t now1 rid hash) now2 rid hash).countP
      (fun row => row.matchesKey rid (goToLower hash)) = 1) ∧
    ((AssociateCertHash (AssociateCertHash t now1 rid hash) now2 rid hash).length =
      (AssociateCertHash t now1 rid hash).length) ∧
    (∀ row ∈ AssociateCertHash (AssociateCertHash t now1 rid hash) now2 rid hash,
      row.matchesKey rid (goToLower hash) = true → row.updatedAt = now2) := by
  have hu1 := uniquePK_associate t now1 rid hash hu
  have hc1 := countP_associate t now1 rid hash hu
  have hany : (AssociateCertHash t now1 rid hash).any
      (fun row => row.matchesKey rid (goToLower hash)) = true := by
    have hpos : 0 < (AssociateCertHash t now1 rid hash).countP
        (fun row => row.matchesKey rid (goToLower hash)) := by omega
    rcases List.countP_pos_iff.mp hpos with ⟨b, hb, hbm⟩
    exact List.any_eq_true.mpr ⟨b, hb, hbm⟩
  exact ⟨countP_associate _ now2 rid hash hu1,
         associate_length_of_any _ now2 rid hash hany,
         associate_updatedAt _ now2 rid hash⟩

/-- Witness for C7 on the empty table: two calls for the pair
("AAA", "abcd") leave one matching row, of length one, stamped with the
second timestamp. -/
theorem C7_associate_idempotent_witness :
    ((AssociateCertHash (AssociateCertHash [] 1 "AAA" "abcd") 2 "AAA" "abcd").countP
      (fun row => row.matchesKey "AAA" (goToLower "abcd")) = 1) ∧
    ((AssociateCertHash (AssociateCertHash [] 1 "AAA" "abcd") 2 "AAA" "abcd").length =
      (AssociateCertHash [] 1 "AAA" "abcd").length) ∧
    (∀ row ∈ AssociateCertHash (AssociateCertHash [] 1 "AAA" "abcd") 2 "AAA" "abcd",
      row.matchesKey "AAA" (goToLower "abcd") = true → row.updatedAt = 2) :=
  C7_associate_idempotent [] 1 2 "AAA" "abcd" List.Pairwise.nil

/-- Claim C8: HasCertHash, IsCertHashAssociated and AssociateCertHash
lowercase the hash argument before storing or matching, so each returns the
same result for any capitalization of the hash; EnrollmentFromHash does not
lowercase, so an association made with the uppercase hex input "AB" (stored
lowercased) is not found when EnrollmentFromHash is called with the same
uppercase string. -/
theorem C8_hash_casing (t : CertAuthTable) (now : Nat) (rid h1 h2 : String)
    (hlow : goToLower h1 = goToLower h2) :
    HasCertHash t h1 = HasCertHash t h2 ∧
    IsCertHashAssociated t rid h1 = IsCertHashAssociated t rid h2 ∧
    AssociateCertHash t now rid h1 = AssociateCertHash t now rid h2 ∧
    EnrollmentFromHash (AssociateCertHash [] 0 "AAA" "AB") "AB" = ("", none) := by
  refine ⟨?_, ?_, ?_, ?_⟩
  · unfold HasCertHash
    rw [hlow]
  · unfold IsCertHashAssociated
    rw [hlow]
  · unfold AssociateCertHash
    rw [hlow]
  · rfl

/-- Witness for C8: the uppercase and lowercase spellings of the same hash
agree on HasCertHash over a one-row table. -/
theorem C8_hash_casing_witness :
    HasCertHash (AssociateCertHash [] 0 "AAA" "AB") "AB" =
      HasCertHash (AssociateCertHash [] 0 "AAA" "AB") "ab" :=
  (C8_hash_casing (AssociateCertHash [] 0 "AAA" "AB") 0 "AAA" "AB" "ab" rfl).1

/-- Claim C9: for every hash with no matching row, EnrollmentFromHash
returns the empty string and a nil error (absence is an empty id, not an
error); a non-nil error is returned only when the scan failed for a reason
other than sql.ErrNoRows. -/
theorem C9_enrollment_from_hash_absent (t : CertAuthTable) (hash : String)
    (res : ScanResult)
    (hno : t.find? (fun row => row.sha256 == hash) = none) :
    EnrollmentFromHash t hash = ("", none) ∧
    ((EnrollmentFromHashResult res).2 ≠ none →
      ∃ m, res = ScanResult.failure (SqlErr.other m)) := by
  constructor
  · unfold EnrollmentFromHash scanEnrollmentFromHash
    rw [hno]
    rfl
  · intro hne
    cases res with
    | row id => exact absurd rfl hne
    | failure e =>
      cases e with
      | noRows => exact absurd rfl hne
      | other m => exact ⟨m, rfl⟩

/-- Witness for C9: on a table holding only a row for "ab", the hash "zz"
finds no row and yields ("", nil); a non-noRows scan failure is the only
source of a non-nil error. -/
theorem C9_enrollment_from_hash_absent_witness :
    EnrollmentFromHash (AssociateCertHash [] 0 "AAA" "ab") "zz" = ("", none) ∧
    ((EnrollmentFromHashResult (ScanResult.failure (SqlErr.other "conn reset"))).2 ≠ none →
      ∃ m, ScanResult.failure (SqlErr.other "conn reset") =
        ScanResult.failure (SqlErr.other m)) :=
  C9_enrollment_from_hash_absent (AssociateCertHash [] 0 "AAA" "ab") "zz"
    (ScanResult.failure (SqlErr.other "conn reset")) rfl

/-- Claim C10: RequestFromHTTP leaves Params nil (none) when the URL has no
query parameters; otherwise Params maps every parameter name to the first
of its values, dropping later values of a repeated parameter. -/
theorem C10_request_params (q : List (String × List String)) :
    (q = [] → RequestFromHTTPParams q = none) ∧
    (q ≠ [] → RequestFromHTTPParams q =
      some (q.map (fun kv => (kv.1, kv.2.headD "")))) ∧
    (∀ k v rest ps, (k, v :: rest) ∈ q → RequestFromHTTPParams q = some ps →
      (k, v) ∈ ps) := by
  refine ⟨?_, ?_, ?_⟩
  · intro hq
    subst hq
    rfl
  · intro hq
    unfold RequestFromHTTPParams
    rw [if_pos]
    cases q with
    | nil => exact absurd rfl hq
    | cons a l => simp
  · intro k v rest ps hmem hps
    unfold RequestFromHTTPParams at hps
    by_cases hq : q.length > 0
    · rw [if_pos hq] at hps
      simp only [Option.some.injEq] at hps
      rw [← hps]
      exact List.mem_map.mpr ⟨(k, v :: rest), hmem, rfl⟩
    · rw [if_neg hq] at hps
      exact absurd hps (by simp)

/-- Witness for C10: an empty query yields nil Params; a query with the
repeated parameter a keeps only its first value. -/
theorem C10_request_params_witness :
    RequestFromHTTPParams [] = none ∧
    RequestFromHTTPParams [("a", ["1", "2"]), ("b", ["3"])] =
      some [("a", "1"), ("b", "3")] ∧
    ("a", "1") ∈ [("a", "1"), ("b", "3")] :=
  ⟨(C10_request_params []).1 rfl,
   (C10_request_params [("a", ["1", "2"]), ("b", ["3"])]).2.1 (by simp),
   (C10_request_params [("a", ["1", "2"]), ("b", ["3"])]).2.2 "a" "1" ["2"]
     [("a", "1"), ("b", "3")] (by simp)
     ((C10_request_params [("a", ["1", "2"]), ("b", ["3"])]).2.1 (by simp))⟩

/-- The error value the handlers hold after the HTTPStatusError unwrap step:
the cause of the first HTTPStatusError found, rewrapped as fmt.Errorf("HTTP
error: %w", ...), or the original error when none is found. -/
def errAfterStatusUnwrap (e : GoErr) : GoErr :=
  match asHTTPStatusError e with
  | some (_, cause) => GoErr.wrapf "HTTP error" cause
  | none => e

/-- Counterexample to claim C6 as stated: the concrete error chain with a
ParseError wrapped above an HTTPStatusError does wrap a ParseError, yet the
handler logs no content (the ParseError search runs on the rewrapped cause
of the HTTPStatusError, where the ParseError is gone); the status is still
taken from the inner HTTPStatusError. -/
theorem C6_parse_content_counterexample :
    asParseError (GoErr.parse "offending-bytes" (GoErr.httpStatus 400 (GoErr.base "cause"))) =
      some ("offending-bytes", GoErr.httpStatus 400 (GoErr.base "cause")) ∧
    (checkinHandlerErrorPath
      (GoErr.parse "offending-bytes" (GoErr.httpStatus 400 (GoErr.base "cause")))).loggedContent
      = none ∧
    (checkinHandlerErrorPath
      (GoErr.parse "offending-bytes" (GoErr.httpStatus 400 (GoErr.base "cause")))).httpStatus
      = 400 :=
  ⟨rfl, rfl, rfl⟩

/-- Claim C6 amended: for both handlers, an error wrapping an
HTTPStatusError yields that status and any other error yields 500; the body
written on the error path is the generic status text of that status; and
the offending content of a ParseError is added to the log exactly when the
ParseError is still found after the handler rewraps the HTTPStatusError
cause (in particular whenever it is wrapped below, not above, the
HTTPStatusError), never to the response body. -/
theorem C6_amended_error_path (e : GoErr) :
    (∀ s c, asHTTPStatusError e = some (s, c) →
      (checkinHandlerErrorPath e).httpStatus = s ∧
      (commandHandlerErrorPath e).httpStatus = s) ∧
    (asHTTPStatusError e = none →
      (checkinHandlerErrorPath e).httpStatus = 500 ∧
      (commandHandlerErrorPath e).httpStatus = 500) ∧
    ((checkinHandlerErrorPath e).body = statusText (checkinHandlerErrorPath e).httpStatus) ∧
    ((commandHandlerErrorPath e).body = statusText (commandHandlerErrorPath e).httpStatus) ∧
    ((checkinHandlerErrorPath e).loggedContent =
      (asParseError (errAfterStatusUnwrap e)).map (fun p => p.1)) ∧
    ((commandHandlerErrorPath e).loggedContent =
      (asParseError (errAfterStatusUnwrap e)).map (fun p => p.1)) := by
  cases hs : asHTTPStatusError e with
  | none =>
    cases hp : asParseError e with
    | none =>
      simp [checkinHandlerErrorPath, commandHandlerErrorPath, errAfterStatusUnwrap, hs, hp]
    | some pc =>
      simp [checkinHandlerErrorPath, commandHandlerErrorPath, errAfterStatusUnwrap, hs, hp]
  | some sc =>
    obtain ⟨s, c⟩ := sc
    cases hp : asParseError c with
    | none =>
      simp [checkinHandlerErrorPath, commandHandlerErrorPath, errAfterStatusUnwrap,
            asParseError, hs, hp]
    | some pc =>
      simp [checkinHandlerErrorPath, commandHandlerErrorPath, errAfterStatusUnwrap,
            asParseError, hs, hp]

/-- Witness for C6 amended at a status-above-parse chain: the handler uses
the requested status 400 and logs the offending content. -/
theorem C6_amended_error_path_witness :
    (checkinHandlerErrorPath
      (GoErr.httpStatus 400 (GoErr.parse "oops" (GoErr.base "x")))).httpStatus = 400 ∧
    (checkinHandlerErrorPath
      (GoErr.httpStatus 400 (GoErr.parse "oops" (GoErr.base "x")))).loggedContent =
      (asParseError (errAfterStatusUnwrap
        (GoErr.httpStatus 400 (GoErr.parse "oops" (GoErr.base "x"))))).map (fun p => p.1) :=
  ⟨((C6_amended_error_path
      (GoErr.httpStatus 400 (GoErr.parse "oops" (GoErr.base "x")))).1 400
      (GoErr.parse "oops" (GoErr.base "x")) rfl).1,
   (C6_amended_error_path
      (GoErr.httpStatus 400 (GoErr.parse "oops" (GoErr.base "x")))).2.2.2.2.1⟩
